import Mathlib

/-!
Shallow embedding of the authentication and account-security subsystem of the
enxero backend (src/modules/auth/services/auth.service.ts,
src/modules/auth/services/security.service.ts,
src/modules/users/services/user.service.ts).

The relational store is a record of lists; each service method becomes a pure
function threading the store.  Wall-clock time is passed explicitly in
milliseconds.  Bcrypt is modelled by a hash value carrying the plaintext and a
salt: two hashes of the same plaintext with different salts are distinct
values (salted hashes are not comparable by equality), while the compare
primitive recovers the plaintext match.  JWTs are modelled as structured
tokens carrying the signing secret; verification checks the secret and the
expiry.  Thrown errors become Except values; since in the source a thrown
error leaves earlier writes in place, every operation returns the
mutated-so-far store alongside the Except result.
-/

namespace Enxero

/-- Bcrypt hash: plaintext plus salt.  hash(p, salt) in the source draws a
random salt; here the salt is threaded from the store nonce. -/
structure BHash where
  plain : String
  salt : Nat
deriving DecidableEq, Repr

/-- bcryptjs hash(password, rounds) with an explicit salt. -/
def bhash (p : String) (salt : Nat) : BHash := ⟨p, salt⟩

/-- bcryptjs compare(plain, hash). -/
def bcompare (p : String) (h : BHash) : Bool := decide (p = h.plain)

/-- One entry of the passwordHistory JSON list: { password, changedAt }. -/
structure HistEntry where
  password : BHash
  changedAt : Nat
deriving DecidableEq, Repr

/-- A row of the User table, restricted to the fields the auth subsystem
reads or writes. -/
structure Account where
  id : String
  email : String
  username : String
  password : BHash
  firstName : String
  lastName : String
  roleId : String
  companyId : String
  accountStatus : String
  deactivatedAt : Option Nat
  deactivationReason : Option String
  lastLogin : Option Nat
  lastPasswordChange : Option Nat
  passwordHistory : List HistEntry
  isActive : Bool
deriving DecidableEq, Repr

/-- A row of the Role table. -/
structure Role where
  id : String
  name : String
deriving DecidableEq, Repr

/-- A row of the Company table (fields touched by register). -/
structure Company where
  id : String
  name : String
  identifier : String
  isActive : Bool
deriving DecidableEq, Repr

/-- Signed access token: payload { userId, roleId, type } plus the signing
secret and expiry instant. -/
structure AccessTok where
  userId : String
  roleId : String
  typ : String
  secret : String
  exp : Nat
deriving DecidableEq, Repr

/-- Signed refresh token: payload { userId, type, jti } plus the signing
secret and expiry instant.  jti is the random nonce of the source. -/
structure RefreshTok where
  userId : String
  typ : String
  jti : Nat
  secret : String
  exp : Nat
deriving DecidableEq, Repr

/-- A row of the UserSession table. -/
structure Session where
  userId : String
  token : RefreshTok
  ipAddress : Option String
  userAgent : Option String
  expiresAt : Nat
  createdAt : Nat
deriving DecidableEq, Repr

/-- A row of the FailedLoginAttempt table. -/
structure FailedLoginAttempt where
  email : String
  ipAddress : Option String
  userAgent : Option String
  userId : Option String
  createdAt : Nat
deriving DecidableEq, Repr

/-- A row of the UserActivity table (metadata elided). -/
structure UserActivity where
  userId : String
  action : String
  ipAddress : Option String
  userAgent : Option String
  createdAt : Nat
deriving DecidableEq, Repr

/-- The environment configuration the token code reads. -/
structure Env where
  JWT_SECRET : String
  JWT_REFRESH_SECRET : String
  JWT_EXPIRES_IN : Nat
  JWT_REFRESH_EXPIRES_IN : Nat
deriving Repr

/-- The relational store: one list per table, plus a nonce supplying the
salts and jti values that the source draws at random. -/
structure Store where
  users : List Account
  roles : List Role
  companies : List Company
  sessions : List Session
  failedLoginAttempts : List FailedLoginAttempt
  activities : List UserActivity
  nonce : Nat
deriving DecidableEq, Repr

/-- AppError(message, statusCode). -/
structure AppError where
  message : String
  statusCode : Nat
deriving DecidableEq, Repr

/-- SecurityService.MAX_FAILED_ATTEMPTS. -/
def MAX_FAILED_ATTEMPTS : Nat := 5

/-- SecurityService.LOCKOUT_DURATION: 15 minutes in milliseconds. -/
def LOCKOUT_DURATION : Nat := 15 * 60 * 1000

/-- SecurityService.SESSION_EXPIRY: 24 hours in milliseconds. -/
def SESSION_EXPIRY : Nat := 24 * 60 * 60 * 1000

/-- prisma.user.findUnique({ where: { email } }). -/
def findUserByEmail (st : Store) (email : String) : Option Account :=
  st.users.find? (fun u => decide (u.email = email))

/-- prisma.user.findUnique({ where: { id } }). -/
def findUserById (st : Store) (id : String) : Option Account :=
  st.users.find? (fun u => decide (u.id = id))

/-- prisma.user.update({ where: { id }, data }): rewrite the rows whose id
matches.  The flows only call this for an id they have just fetched. -/
def updateUser (st : Store) (id : String) (f : Account → Account) : Store :=
  { st with users := st.users.map (fun u => if u.id = id then f u else u) }

/-- The count query of trackFailedLoginAttempt: attempts for this user
with createdAt >= now - LOCKOUT_DURATION. -/
def recentFailedCount (st : Store) (userId : String) (now : Nat) : Nat :=
  st.failedLoginAttempts.countP
    (fun a => decide (a.userId = some userId) && decide (now - LOCKOUT_DURATION ≤ a.createdAt))

/-- The user update applied when the lockout threshold is reached. -/
def lockUpdate (now : Nat) (u : Account) : Account :=
  { u with accountStatus := "LOCKED", deactivatedAt := some now,
           deactivationReason := some "Too many failed login attempts" }

/-- SecurityService.trackFailedLoginAttempt: resolve the user by email,
always append the attempt row (userId only when resolved), then when a user
was resolved re-count the recent attempts and lock the account when the
count reaches MAX_FAILED_ATTEMPTS. -/
def trackFailedLoginAttempt (st : Store) (now : Nat) (email : String)
    (ipAddress userAgent : Option String) : Store :=
  let user? := findUserByEmail st email
  let st1 : Store := { st with failedLoginAttempts :=
      st.failedLoginAttempts ++ [⟨email, ipAddress, userAgent, user?.map (·.id), now⟩] }
  match user? with
  | none => st1
  | some user =>
    if MAX_FAILED_ATTEMPTS ≤ recentFailedCount st1 user.id now then
      updateUser st1 user.id (lockUpdate now)
    else st1

/-- SecurityService.isAccountLocked: true only while now is before
lock-start + LOCKOUT_DURATION; past the window it auto-unlocks the account
before returning false. -/
def isAccountLocked (st : Store) (now : Nat) (userId : String) : Bool × Store :=
  match findUserById st userId with
  | none => (false, st)
  | some user =>
    if user.accountStatus = "LOCKED" then
      match user.deactivatedAt with
      | some lockStart =>
        if now < lockStart + LOCKOUT_DURATION then (true, st)
        else
          (false, updateUser st userId (fun u =>
            { u with accountStatus := "ACTIVE", deactivatedAt := none,
                     deactivationReason := none }))
      | none => (false, st)
    else (false, st)

/-- SecurityService.createSession: deleteMany on the token, then insert
with expiresAt = now + SESSION_EXPIRY. -/
def createSession (st : Store) (now : Nat) (userId : String) (token : RefreshTok)
    (ipAddress userAgent : Option String) : Session × Store :=
  let pruned := st.sessions.filter (fun s => !decide (s.token = token))
  let sess : Session := ⟨userId, token, ipAddress, userAgent, now + SESSION_EXPIRY, now⟩
  (sess, { st with sessions := pruned ++ [sess] })

/-- SecurityService.invalidateSession: prisma delete({ where: { token } }),
which throws (P2025) when no row matches. -/
def invalidateSession (st : Store) (token : RefreshTok) : Except AppError Unit × Store :=
  if st.sessions.any (fun s => decide (s.token = token)) then
    (Except.ok (), { st with sessions := st.sessions.filter (fun s => !decide (s.token = token)) })
  else
    (Except.error ⟨"Record to delete does not exist.", 500⟩, st)

/-- SecurityService.trackActivity: append an activity row. -/
def trackActivity (st : Store) (now : Nat) (userId : String) (action : String)
    (ipAddress userAgent : Option String) : Store :=
  { st with activities := st.activities ++ [⟨userId, action, ipAddress, userAgent, now⟩] }

/-- AuthService.generateTokens: the access token signed with JWT_SECRET,
the refresh token signed with JWT_REFRESH_SECRET and carrying the jti. -/
def generateTokens (env : Env) (now jti : Nat) (u : Account) : AccessTok × RefreshTok :=
  (⟨u.id, u.roleId, "access", env.JWT_SECRET, now + env.JWT_EXPIRES_IN⟩,
   ⟨u.id, "refresh", jti, env.JWT_REFRESH_SECRET, now + env.JWT_REFRESH_EXPIRES_IN⟩)

/-- jsonwebtoken verify(token, JWT_REFRESH_SECRET): payload userId when the
signature matches and the token is not expired, otherwise a thrown error
(none). -/
def verifyRefresh (env : Env) (now : Nat) (t : RefreshTok) : Option String :=
  if t.secret = env.JWT_REFRESH_SECRET ∧ now < t.exp then some t.userId else none

/-- ILoginDto. -/
structure ILoginDto where
  email : String
  password : String
  ipAddress : Option String
  userAgent : Option String
deriving DecidableEq, Repr

/-- IRegisterDto. -/
structure IRegisterDto where
  email : String
  username : String
  password : String
  firstName : String
  lastName : String
  ipAddress : Option String
  userAgent : Option String
deriving DecidableEq, Repr

/-- IRefreshTokenDto; the token is the structured refresh token. -/
structure IRefreshTokenDto where
  refreshToken : RefreshTok
  ipAddress : Option String
  userAgent : Option String
deriving DecidableEq, Repr

/-- The user summary returned in IAuthResponse. -/
structure UserSummary where
  id : String
  email : String
  username : String
  role : String
  companyId : String
deriving DecidableEq, Repr

/-- IAuthResponse. -/
structure IAuthResponse where
  accessToken : AccessTok
  refreshToken : RefreshTok
  user : UserSummary
deriving DecidableEq, Repr

/-- user.role?.name || USER, with the role joined by roleId. -/
def roleName (st : Store) (u : Account) : String :=
  ((st.roles.find? (fun r => decide (r.id = u.roleId))).map (·.name)).getD "USER"

/-- AuthService.register: uniqueness check, hash, default role lookup,
company create, user create, tokens, session, activity. -/
def register (env : Env) (st : Store) (now : Nat) (data : IRegisterDto) :
    Except AppError IAuthResponse × Store :=
  match st.users.find? (fun u => decide (u.email = data.email) || decide (u.username = data.username)) with
  | some _ => (Except.error ⟨"User already exists", 400⟩, st)
  | none =>
    let hashedPassword := bhash data.password st.nonce
    let st1 : Store := { st with nonce := st.nonce + 1 }
    match st1.roles.find? (fun r => decide (r.name = "USER")) with
    | none => (Except.error ⟨"Default role not found", 500⟩, st1)
    | some defaultRole =>
      let companyId := "company_" ++ toString st1.nonce
      let company : Company :=
        ⟨companyId, data.firstName ++ String.singleton (Char.ofNat 39) ++ "s Company",
         data.username.toUpper, true⟩
      let st2 : Store := { st1 with companies := st1.companies ++ [company], nonce := st1.nonce + 1 }
      let userId := "user_" ++ toString st2.nonce
      let user : Account :=
        { id := userId, email := data.email, username := data.username,
          password := hashedPassword, firstName := data.firstName, lastName := data.lastName,
          roleId := defaultRole.id, companyId := companyId,
          accountStatus := "active", deactivatedAt := none, deactivationReason := none,
          lastLogin := none, lastPasswordChange := none, passwordHistory := [], isActive := true }
      let st3 : Store := { st2 with users := st2.users ++ [user], nonce := st2.nonce + 1 }
      let jti := st3.nonce
      let st4 : Store := { st3 with nonce := st3.nonce + 1 }
      let tokens := generateTokens env now jti user
      let st5 := (createSession st4 now user.id tokens.2 data.ipAddress data.userAgent).2
      let st6 := trackActivity st5 now user.id "USER_REGISTERED" data.ipAddress data.userAgent
      (Except.ok ⟨tokens.1, tokens.2,
        ⟨user.id, user.email, user.username, defaultRole.name, user.companyId⟩⟩, st6)

/-- AuthService.login. -/
def login (env : Env) (st : Store) (now : Nat) (data : ILoginDto) :
    Except AppError IAuthResponse × Store :=
  match findUserByEmail st data.email with
  | none =>
    (Except.error ⟨"Invalid credentials", 401⟩,
     trackFailedLoginAttempt st now data.email data.ipAddress data.userAgent)
  | some user =>
    let lockCheck := isAccountLocked st now user.id
    if lockCheck.1 then
      (Except.error ⟨"Account is locked due to too many failed attempts. Please try again later.", 401⟩,
       lockCheck.2)
    else if bcompare data.password user.password then
      let st2 := updateUser lockCheck.2 user.id (fun u => { u with lastLogin := some now })
      let jti := st2.nonce
      let st3 : Store := { st2 with nonce := st2.nonce + 1 }
      let tokens := generateTokens env now jti user
      let st4 := (createSession st3 now user.id tokens.2 data.ipAddress data.userAgent).2
      let st5 := trackActivity st4 now user.id "USER_LOGGED_IN" data.ipAddress data.userAgent
      (Except.ok ⟨tokens.1, tokens.2,
        ⟨user.id, user.email, user.username, roleName st user, user.companyId⟩⟩, st5)
    else
      (Except.error ⟨"Invalid credentials", 401⟩,
       trackFailedLoginAttempt lockCheck.2 now data.email data.ipAddress data.userAgent)

/-- AuthService.refreshToken.  The whole body sits in a try/catch whose
catch rethrows AppError(Invalid refresh token, 401); so a verification
failure, a missing user (the inner thrown User not found), and a throwing
invalidateSession all surface as that one error, with the store as the
failing step left it. -/
def refreshToken (env : Env) (st : Store) (now : Nat) (data : IRefreshTokenDto) :
    Except AppError IAuthResponse × Store :=
  match verifyRefresh env now data.refreshToken with
  | none => (Except.error ⟨"Invalid refresh token", 401⟩, st)
  | some userId =>
    match findUserById st userId with
    | none => (Except.error ⟨"Invalid refresh token", 401⟩, st)
    | some user =>
      let inv := invalidateSession st data.refreshToken
      match inv.1 with
      | Except.error _ => (Except.error ⟨"Invalid refresh token", 401⟩, inv.2)
      | Except.ok _ =>
        let st1 := inv.2
        let jti := st1.nonce
        let st2 : Store := { st1 with nonce := st1.nonce + 1 }
        let tokens := generateTokens env now jti user
        let st3 := (createSession st2 now user.id tokens.2 data.ipAddress data.userAgent).2
        let st4 := trackActivity st3 now user.id "TOKEN_REFRESHED" data.ipAddress data.userAgent
        (Except.ok ⟨tokens.1, tokens.2,
          ⟨user.id, user.email, user.username, roleName st user, user.companyId⟩⟩, st4)

/-- AuthService.logout: invalidateSession in a try/catch that logs and
swallows any error, so the caller always sees success. -/
def logout (st : Store) (token : RefreshTok) : Except AppError Unit × Store :=
  let inv := invalidateSession st token
  (Except.ok (), inv.2)

/-- UserService.changePassword. -/
def changePassword (st : Store) (now : Nat) (userId currentPassword newPassword : String) :
    Except AppError String × Store :=
  match findUserById st userId with
  | none => (Except.error ⟨"User not found", 404⟩, st)
  | some user =>
    if bcompare currentPassword user.password then
      if user.passwordHistory.any (fun h => bcompare newPassword h.password) then
        (Except.error ⟨"New password cannot be the same as any of your last 5 passwords", 400⟩, st)
      else
        let hashedPassword := bhash newPassword st.nonce
        let st1 : Store := { st with nonce := st.nonce + 1 }
        let updatedHistory : List HistEntry := ⟨hashedPassword, now⟩ :: user.passwordHistory.take 4
        let st2 := updateUser st1 userId (fun u =>
          { u with password := hashedPassword, passwordHistory := updatedHistory,
                   lastPasswordChange := some now })
        (Except.ok "Password updated successfully", st2)
    else (Except.error ⟨"Current password is incorrect", 400⟩, st)

/-! Concrete example data used by witnesses and counterexamples. -/

/-- A concrete environment. -/
def cEnv : Env := ⟨"accesskey", "refreshkey", 900000, 604800000⟩

/-- The default role. -/
def cRole : Role := ⟨"r1", "USER"⟩

/-- A concrete active account with empty password history. -/
def cUser : Account :=
  { id := "u1", email := "a@x.com", username := "alice", password := ⟨"pw", 0⟩,
    firstName := "A", lastName := "L", roleId := "r1", companyId := "c1",
    accountStatus := "active", deactivatedAt := none, deactivationReason := none,
    lastLogin := none, lastPasswordChange := none, passwordHistory := [], isActive := true }

/-- A refresh token for cUser signed with the refresh secret of cEnv. -/
def cTok : RefreshTok := ⟨"u1", "refresh", 7, "refreshkey", 1000000⟩

/-- A store holding cUser and cRole and no sessions. -/
def cStore : Store :=
  { users := [cUser], roles := [cRole], companies := [], sessions := [],
    failedLoginAttempts := [], activities := [], nonce := 0 }

/-- A session row for cTok. -/
def cSession : Session := ⟨"u1", cTok, none, none, 1000000, 100⟩

/-- cStore with the session for cTok present. -/
def cStoreWithSession : Store := { cStore with sessions := [cSession] }

/-- A second concrete account, target of the lockout scenario. -/
def c2User : Account :=
  { cUser with id := "u2", email := "b@x.com", username := "bob", password := ⟨"pw2", 0⟩ }

/-- A failed attempt row for c2User inside the lockout window of time 1000000. -/
def c2Attempt : FailedLoginAttempt := ⟨"b@x.com", none, none, some "u2", 999000⟩

/-- A store where c2User already has four recent failed attempts. -/
def c2Store : Store :=
  { cStore with
    users := [c2User],
    failedLoginAttempts := [c2Attempt, c2Attempt, c2Attempt, c2Attempt] }

/-- A locked account whose lock started at time 0. -/
def c3User : Account :=
  { cUser with
    id := "u3", email := "c@x.com", username := "carol",
    accountStatus := "LOCKED", deactivatedAt := some 0,
    deactivationReason := some "Too many failed login attempts" }

/-- A store holding the locked account. -/
def c3Store : Store := { cStore with users := [c3User] }

/-- A registration request that collides with cUser by email. -/
def cRegDto : IRegisterDto := ⟨"a@x.com", "alice2", "pw2", "A", "L", none, none⟩

/-- A registration request free of any collision with cStore. -/
def cFreshRegDto : IRegisterDto := ⟨"new@x.com", "neal", "npw", "N", "E", none, none⟩

/-! Helper lemmas. -/

/-- find? commutes with a map that does not change the predicate value. -/
theorem find?_map_of_comm {α : Type} (g : α → α) (p : α → Bool)
    (hp : ∀ a, p (g a) = p a) (l : List α) :
    (l.map g).find? p = (l.find? p).map g := by
  induction l with
  | nil => rfl
  | cons a l ih =>
    simp only [List.map_cons, List.find?]
    rw [hp a]
    cases hpa : p a
    · exact ih
    · rfl

/-- Filtering away everything that satisfies p leaves nothing satisfying p. -/
theorem any_filter_not {α : Type} (p : α → Bool) (l : List α) :
    (l.filter (fun a => !p a)).any p = false := by
  rw [List.any_eq_false]
  intro a ha
  have h := (List.mem_filter.mp ha).2
  simp only [Bool.not_eq_eq_eq_not, Bool.not_true] at h
  simp [h]

/-- Counting p after filtering away everything that satisfies p gives zero. -/
theorem countP_filter_not {α : Type} (p : α → Bool) (l : List α) :
    (l.filter (fun a => !p a)).countP p = 0 := by
  rw [List.countP_eq_zero]
  intro a ha
  have h := (List.mem_filter.mp ha).2
  simp only [Bool.not_eq_eq_eq_not, Bool.not_true] at h
  simp [h]

/-- Looking up by id after updateUser on that id maps the update over the
lookup result, provided the update preserves ids. -/
theorem findUserById_updateUser (st : Store) (id : String) (f : Account → Account)
    (hf : ∀ a, (f a).id = a.id) :
    findUserById (updateUser st id f) id = (findUserById st id).map f := by
  have hp : ∀ a : Account,
      (fun x : Account => decide (x.id = id)) (if a.id = id then f a else a) =
        (fun x : Account => decide (x.id = id)) a := by
    intro a
    by_cases h : a.id = id <;> simp [h, hf]
  simp only [findUserById, updateUser]
  rw [find?_map_of_comm (fun x : Account => if x.id = id then f x else x)
    (fun x : Account => decide (x.id = id)) hp st.users]
  cases hw : st.users.find? (fun x : Account => decide (x.id = id)) with
  | none => rfl
  | some w =>
    have hwid : w.id = id := by simpa using List.find?_some hw
    simp [hwid]

/-- Looking up by email after updateUser maps the conditional update over
the lookup result, provided the update preserves emails. -/
theorem findUserByEmail_updateUser (st : Store) (id : String) (f : Account → Account)
    (hf : ∀ a, (f a).email = a.email) (e : String) :
    findUserByEmail (updateUser st id f) e =
      (findUserByEmail st e).map (fun x => if x.id = id then f x else x) := by
  have hp : ∀ a : Account,
      (fun x : Account => decide (x.email = e)) (if a.id = id then f a else a) =
        (fun x : Account => decide (x.email = e)) a := by
    intro a
    by_cases h : a.id = id <;> simp [h, hf]
  simp only [findUserByEmail, updateUser]
  exact find?_map_of_comm _ _ hp st.users

/-- updateUser leaves every non-user table unchanged. -/
@[simp] theorem updateUser_failedLoginAttempts (st : Store) (id : String) (f : Account → Account) :
    (updateUser st id f).failedLoginAttempts = st.failedLoginAttempts := rfl

/-- updateUser leaves the session table unchanged. -/
@[simp] theorem updateUser_sessions (st : Store) (id : String) (f : Account → Account) :
    (updateUser st id f).sessions = st.sessions := rfl

/-- trackFailedLoginAttempt only appends one attempt row, whatever else it
does to the user table. -/
theorem trackFailedLoginAttempt_attempts (st : Store) (now : Nat) (email : String)
    (ip ua : Option String) :
    (trackFailedLoginAttempt st now email ip ua).failedLoginAttempts =
      st.failedLoginAttempts ++
        [⟨email, ip, ua, (findUserByEmail st email).map (·.id), now⟩] := by
  unfold trackFailedLoginAttempt
  cases h : findUserByEmail st email with
  | none => simp [h]
  | some u =>
    simp only [h]
    split
    · rfl
    · rfl

/-- Claim C6: createSession deletes any existing session with the same token
value before the insert, so afterwards exactly one session carries that token
(and per-token uniqueness is preserved for every token value), and the new
session expires 24 hours after creation time. -/
theorem C6_createSession_unique_token (st : Store) (now : Nat) (userId : String)
    (token : RefreshTok) (ip ua : Option String) :
    (createSession st now userId token ip ua).1.expiresAt = now + SESSION_EXPIRY ∧
    (createSession st now userId token ip ua).2.sessions =
      st.sessions.filter (fun s => !decide (s.token = token)) ++
        [⟨userId, token, ip, ua, now + SESSION_EXPIRY, now⟩] ∧
    (createSession st now userId token ip ua).2.sessions.countP
        (fun s => decide (s.token = token)) = 1 ∧
    (∀ t : RefreshTok, st.sessions.countP (fun s => decide (s.token = t)) ≤ 1 →
      (createSession st now userId token ip ua).2.sessions.countP
          (fun s => decide (s.token = t)) ≤ 1) := by
  refine ⟨rfl, rfl, ?_, ?_⟩
  · simp only [createSession, List.countP_append,
      countP_filter_not (fun s : Session => decide (s.token = token)) st.sessions]
    simp [List.countP_cons]
  · intro t hle
    by_cases ht : t = token
    · subst ht
      simp only [createSession, List.countP_append,
        countP_filter_not (fun s : Session => decide (s.token = t)) st.sessions]
      simp [List.countP_cons]
    · have hsub : (st.sessions.filter (fun s => !decide (s.token = token))).countP
          (fun s => decide (s.token = t)) ≤
          st.sessions.countP (fun s => decide (s.token = t)) :=
        (List.filter_sublist st.sessions).countP_le _
      simp only [createSession, List.countP_append]
      have hts : ¬ token = t := fun hh => ht hh.symm
      have hone : ([(⟨userId, token, ip, ua, now + SESSION_EXPIRY, now⟩ : Session)].countP
          (fun s => decide (s.token = t))) = 0 := by
        simp [List.countP_cons, hts]
      omega

/-- Witness for C6 at a concrete store, discharging the uniqueness
hypothesis of the preservation part. -/
theorem C6_createSession_unique_token_witness :
    (createSession cStoreWithSession 5000 "u1" cTok none none).2.sessions.countP
        (fun s => decide (s.token = cTok)) ≤ 1 :=
  (C6_createSession_unique_token cStoreWithSession 5000 "u1" cTok none none).2.2.2 cTok
    (by decide)

/-- Claim C7: registering with an email or a username that is already taken
fails with the Conflict error (User already exists, 400) and leaves the
store exactly as it was: no account, company, session, or activity row is
created. -/
theorem C7_register_conflict (env : Env) (st : Store) (now : Nat) (d : IRegisterDto)
    (h : (st.users.find? (fun u =>
        decide (u.email = d.email) || decide (u.username = d.username))).isSome = true) :
    register env st now d = (Except.error ⟨"User already exists", 400⟩, st) := by
  obtain ⟨w, hw⟩ := Option.isSome_iff_exists.mp h
  simp only [register, hw]

/-- Witness for C7: registering with the email of cUser fails Conflict and
leaves cStore unchanged. -/
theorem C7_register_conflict_witness :
    register cEnv cStore 5000 cRegDto = (Except.error ⟨"User already exists", 400⟩, cStore) :=
  C7_register_conflict cEnv cStore 5000 cRegDto (by decide)

/-- Claim C8: logout always reports success; it removes every session
matching the presented token, and a second logout with the same token also
reports success and changes nothing (idempotent for the caller). -/
theorem C8_logout_idempotent (st : Store) (token : RefreshTok) :
    (logout st token).1 = Except.ok () ∧
    (logout st token).2.sessions.any (fun s => decide (s.token = token)) = false ∧
    (logout (logout st token).2 token).1 = Except.ok () ∧
    (logout (logout st token).2 token).2 = (logout st token).2 := by
  have hf := any_filter_not (fun s : Session => decide (s.token = token)) st.sessions
  by_cases h : st.sessions.any (fun s => decide (s.token = token)) = true
  · refine ⟨?_, ?_, ?_, ?_⟩ <;> simp [logout, invalidateSession, h, hf]
  · rw [Bool.not_eq_true] at h
    refine ⟨?_, ?_, ?_, ?_⟩ <;> simp [logout, invalidateSession, h]

/-- Claim C9: a login attempt against an account whose lock window has not
elapsed fails AccountLocked with the store exactly unchanged: the password
is never compared, no failed-attempt row is appended, lastLogin is not
updated, and no session or activity row is created. -/
theorem C9_locked_login_frame (env : Env) (st : Store) (now : Nat) (d : ILoginDto)
    (u : Account) (t : Nat)
    (hfe : findUserByEmail st d.email = some u)
    (hfid : findUserById st u.id = some u)
    (hst : u.accountStatus = "LOCKED")
    (hda : u.deactivatedAt = some t)
    (hwin : now < t + LOCKOUT_DURATION) :
    login env st now d =
      (Except.error
        ⟨"Account is locked due to too many failed attempts. Please try again later.", 401⟩,
       st) := by
  simp only [login, hfe, isAccountLocked, hfid, hst, hda, if_true, hwin, if_pos]

/-- Witness for C9: a login against the locked c3Store inside the window
fails AccountLocked and leaves the store untouched. -/
theorem C9_locked_login_frame_witness :
    login cEnv c3Store 1000 ⟨"c@x.com", "pw", none, none⟩ =
      (Except.error
        ⟨"Account is locked due to too many failed attempts. Please try again later.", 401⟩,
       c3Store) :=
  C9_locked_login_frame cEnv c3Store 1000 ⟨"c@x.com", "pw", none, none⟩ c3User 0
    (by decide) (by decide) (by decide) (by decide) (by decide)

/-- Claim C3: isAccountLocked returns true exactly while now is within
lock-start plus LOCKOUT_DURATION; on a check after the window has elapsed it
auto-unlocks the account, clearing status, lock-start timestamp and reason,
before returning false. -/
theorem C3_isLocked_window_and_autounlock (st : Store) (now : Nat) (userId : String)
    (u : Account) (hu : findUserById st userId = some u) :
    ((isAccountLocked st now userId).1 = true ↔
      u.accountStatus = "LOCKED" ∧
        ∃ t, u.deactivatedAt = some t ∧ now < t + LOCKOUT_DURATION) ∧
    (∀ t, u.accountStatus = "LOCKED" → u.deactivatedAt = some t →
      ¬ now < t + LOCKOUT_DURATION →
      isAccountLocked st now userId =
        (false, updateUser st userId (fun v =>
          { v with accountStatus := "ACTIVE", deactivatedAt := none,
                   deactivationReason := none }))) := by
  constructor
  · by_cases hs : u.accountStatus = "LOCKED"
    · cases hda : u.deactivatedAt with
      | none => simp [isAccountLocked, hu, hs, hda]
      | some t =>
        by_cases ht : now < t + LOCKOUT_DURATION
        · simp [isAccountLocked, hu, hs, hda, ht]
        · simp [isAccountLocked, hu, hs, hda, ht]
    · simp [isAccountLocked, hu, hs]
  · intro t hs hda hlt
    simp [isAccountLocked, hu, hs, hda, hlt]

/-- Witness for C3: the lock of c3User started at 0, so a check at 900000
(the first instant past the window) auto-unlocks and reports false. -/
theorem C3_isLocked_window_and_autounlock_witness :
    isAccountLocked c3Store 900000 "u3" =
      (false, updateUser c3Store "u3" (fun v =>
        { v with accountStatus := "ACTIVE", deactivatedAt := none,
                 deactivationReason := none })) :=
  (C3_isLocked_window_and_autounlock c3Store 900000 "u3" c3User (by decide)).2 0
    (by decide) (by decide) (by decide)

/-- Claim C4: changePassword fails NotFound (404) when the account is
missing; fails with the invalid-credential error (400) when currentPassword
does not match the stored hash; fails PasswordReused (400) when the new
password matches, via the compare primitive scanned over each entry, any
hash in the stored history; and on success hashes the new password, prepends
the new entry keeping at most 5 entries newest-first, and updates
lastPasswordChange. -/
theorem C4_changePassword_cases (st : Store) (now : Nat)
    (userId currentPassword newPassword : String) :
    (findUserById st userId = none →
      changePassword st now userId currentPassword newPassword =
        (Except.error ⟨"User not found", 404⟩, st)) ∧
    (∀ u, findUserById st userId = some u →
      (bcompare currentPassword u.password = false →
        changePassword st now userId currentPassword newPassword =
          (Except.error ⟨"Current password is incorrect", 400⟩, st)) ∧
      (bcompare currentPassword u.password = true →
        u.passwordHistory.any (fun h => bcompare newPassword h.password) = true →
        changePassword st now userId currentPassword newPassword =
          (Except.error
            ⟨"New password cannot be the same as any of your last 5 passwords", 400⟩, st)) ∧
      (bcompare currentPassword u.password = true →
        u.passwordHistory.any (fun h => bcompare newPassword h.password) = false →
        changePassword st now userId currentPassword newPassword =
          (Except.ok "Password updated successfully",
           updateUser { st with nonce := st.nonce + 1 } userId (fun v =>
             { v with password := bhash newPassword st.nonce,
                      passwordHistory :=
                        ⟨bhash newPassword st.nonce, now⟩ :: u.passwordHistory.take 4,
                      lastPasswordChange := some now })) ∧
        (⟨bhash newPassword st.nonce, now⟩ ::
            u.passwordHistory.take 4 : List HistEntry).length ≤ 5)) := by
  refine ⟨?_, ?_⟩
  · intro h
    simp only [changePassword, h]
  · intro u hu
    refine ⟨?_, ?_, ?_⟩
    · intro hc
      simp [changePassword, hu, hc]
    · intro hc hh
      simp [changePassword, hu, hc, hh]
    · intro hc hh
      refine ⟨?_, ?_⟩
      · simp [changePassword, hu, hc, hh]
      · have := List.length_take_le 4 u.passwordHistory
        simp only [List.length_cons]
        omega

/-- Witness for C4: changing the password of cUser (empty history) with the
correct current password succeeds, prepending one entry. -/
theorem C4_changePassword_cases_witness :
    changePassword cStore 5000 "u1" "pw" "npw" =
      (Except.ok "Password updated successfully",
       updateUser { cStore with nonce := cStore.nonce + 1 } "u1" (fun v =>
         { v with password := bhash "npw" cStore.nonce,
                  passwordHistory := ⟨bhash "npw" cStore.nonce, 5000⟩ ::
                    (cUser.passwordHistory).take 4,
                  lastPasswordChange := some 5000 })) ∧
    (⟨bhash "npw" cStore.nonce, 5000⟩ ::
        (cUser.passwordHistory).take 4 : List HistEntry).length ≤ 5 :=
  ((C4_changePassword_cases cStore 5000 "u1" "pw" "npw").2 cUser (by decide)).2.2
    (by decide) (by decide)

/-- Claim C5: an unknown email and a known email with a wrong password are
externally indistinguishable: both append one FailedLoginAttempt row (keyed
by email, with the account reference only when one exists) and both fail
with the identical Invalid credentials message and 401 status. -/
theorem C5_enumeration_indistinguishable (env : Env) (st : Store) (now : Nat)
    (e1 e2 pw1 pw2 : String) (ip ua : Option String) (u : Account)
    (h1 : findUserByEmail st e1 = none)
    (h2 : findUserByEmail st e2 = some u)
    (h2id : findUserById st u.id = some u)
    (hnl : u.accountStatus ≠ "LOCKED")
    (hpw : bcompare pw2 u.password = false) :
    (login env st now ⟨e1, pw1, ip, ua⟩).1 = Except.error ⟨"Invalid credentials", 401⟩ ∧
    (login env st now ⟨e2, pw2, ip, ua⟩).1 = Except.error ⟨"Invalid credentials", 401⟩ ∧
    (login env st now ⟨e1, pw1, ip, ua⟩).2.failedLoginAttempts =
      st.failedLoginAttempts ++ [⟨e1, ip, ua, none, now⟩] ∧
    (login env st now ⟨e2, pw2, ip, ua⟩).2.failedLoginAttempts =
      st.failedLoginAttempts ++ [⟨e2, ip, ua, some u.id, now⟩] := by
  have hlock : isAccountLocked st now u.id = (false, st) := by
    simp [isAccountLocked, h2id, hnl]
  refine ⟨?_, ?_, ?_, ?_⟩
  · simp [login, h1]
  · simp [login, h2, hlock, hpw]
  · simp [login, h1, trackFailedLoginAttempt_attempts]
  · simp [login, h2, hlock, hpw, trackFailedLoginAttempt_attempts]

/-- Witness for C5: in cStore the unknown email z@x.com and the known email
a@x.com with a wrong password produce the same error and each append one
attempt row. -/
theorem C5_enumeration_indistinguishable_witness :
    (login cEnv cStore 5000 ⟨"z@x.com", "pw1", none, none⟩).1 =
      Except.error ⟨"Invalid credentials", 401⟩ ∧
    (login cEnv cStore 5000 ⟨"a@x.com", "wrong", none, none⟩).1 =
      Except.error ⟨"Invalid credentials", 401⟩ ∧
    (login cEnv cStore 5000 ⟨"z@x.com", "pw1", none, none⟩).2.failedLoginAttempts =
      cStore.failedLoginAttempts ++ [⟨"z@x.com", none, none, none, 5000⟩] ∧
    (login cEnv cStore 5000 ⟨"a@x.com", "wrong", none, none⟩).2.failedLoginAttempts =
      cStore.failedLoginAttempts ++ [⟨"a@x.com", none, none, some cUser.id, 5000⟩] :=
  C5_enumeration_indistinguishable cEnv cStore 5000 "z@x.com" "a@x.com" "pw1" "wrong"
    none none cUser (by decide) (by decide) (by decide) (by decide) (by decide)

/-- Claim C1 is false on the code: inside refreshToken the old-session
invalidation is prisma delete, which throws when no row matches the token,
and the flow-wide catch rethrows Invalid refresh token; so with a valid
token, an existing account and no matching session, the flow fails instead
of succeeding. -/
theorem C1_counterexample_missing_session_fails :
    verifyRefresh cEnv 5000 cTok = some "u1" ∧
    findUserById cStore "u1" = some cUser ∧
    cStore.sessions = [] ∧
    (refreshToken cEnv cStore 5000 ⟨cTok, none, none⟩).1 =
      Except.error ⟨"Invalid refresh token", 401⟩ :=
  ⟨rfl, rfl, rfl, rfl⟩

/-- Claim C1 (amended): in the refresh flow with a token that verifies and
an account that exists, the absence of a session row matching the presented
token IS fatal: invalidateSession throws, the catch-all converts it, and the
flow fails Invalid refresh token with the store unchanged; only when a
matching session exists does the flow succeed, issuing a fresh token pair
and creating a new session. -/
theorem C1_refresh_session_check (env : Env) (st : Store) (now : Nat)
    (d : IRefreshTokenDto) (uid : String) (u : Account)
    (hv : verifyRefresh env now d.refreshToken = some uid)
    (hu : findUserById st uid = some u) :
    (st.sessions.any (fun s => decide (s.token = d.refreshToken)) = false →
      refreshToken env st now d = (Except.error ⟨"Invalid refresh token", 401⟩, st)) ∧
    (st.sessions.any (fun s => decide (s.token = d.refreshToken)) = true →
      (refreshToken env st now d).1 =
        Except.ok ⟨(generateTokens env now st.nonce u).1,
          (generateTokens env now st.nonce u).2,
          ⟨u.id, u.email, u.username, roleName st u, u.companyId⟩⟩ ∧
      (refreshToken env st now d).2.sessions =
        ((st.sessions.filter (fun s => !decide (s.token = d.refreshToken))).filter
            (fun s => !decide (s.token = (generateTokens env now st.nonce u).2))) ++
          [⟨u.id, (generateTokens env now st.nonce u).2, d.ipAddress, d.userAgent,
            now + SESSION_EXPIRY, now⟩]) := by
  refine ⟨?_, ?_⟩
  · intro hs
    simp [refreshToken, hv, hu, invalidateSession, hs]
  · intro hs
    refine ⟨?_, ?_⟩ <;>
      simp [refreshToken, hv, hu, invalidateSession, hs, createSession, trackActivity]

/-- Witness for C1 (amended), no-session side: cStore has no sessions, so
the refresh of a valid token fails and leaves the store unchanged. -/
theorem C1_refresh_session_check_witness :
    refreshToken cEnv cStore 5000 ⟨cTok, none, none⟩ =
      (Except.error ⟨"Invalid refresh token", 401⟩, cStore) :=
  (C1_refresh_session_check cEnv cStore 5000 ⟨cTok, none, none⟩ "u1" cUser
    (by decide) (by decide)).1 (by decide)

/-- Claim C2: recording a failed login attempt that brings the windowed
(15 minute) failed-attempt count for the account to the threshold of 5 locks
the account, stamping the lock-start time and a reason; a subsequent login
attempt inside the window, even with the correct password, fails
AccountLocked. -/
theorem C2_fifth_failure_locks (env : Env) (st : Store) (now now2 : Nat)
    (email pw : String) (ip ua : Option String) (u : Account)
    (hfe : findUserByEmail st email = some u)
    (hcount : MAX_FAILED_ATTEMPTS ≤ recentFailedCount
      { st with failedLoginAttempts :=
          st.failedLoginAttempts ++ [⟨email, ip, ua, some u.id, now⟩] } u.id now)
    (hw1 : now ≤ now2) (hw2 : now2 < now + LOCKOUT_DURATION)
    (hpw : bcompare pw u.password = true) :
    (∃ v, findUserById (trackFailedLoginAttempt st now email ip ua) u.id = some v ∧
      v.accountStatus = "LOCKED" ∧ v.deactivatedAt = some now ∧
      v.deactivationReason = some "Too many failed login attempts") ∧
    (login env (trackFailedLoginAttempt st now email ip ua) now2 ⟨email, pw, ip, ua⟩).1 =
      Except.error
        ⟨"Account is locked due to too many failed attempts. Please try again later.", 401⟩ := by
  have hfe' : st.users.find? (fun x => decide (x.email = email)) = some u := hfe
  have htrack : trackFailedLoginAttempt st now email ip ua =
      updateUser { st with failedLoginAttempts :=
          st.failedLoginAttempts ++ [⟨email, ip, ua, some u.id, now⟩] } u.id
        (lockUpdate now) := by
    simp only [trackFailedLoginAttempt, hfe, Option.map_some']
    rw [if_pos hcount]
  have hmem : u ∈ st.users := List.mem_of_find?_eq_some hfe'
  have hsome : (st.users.find? (fun x : Account => decide (x.id = u.id))).isSome := by
    rw [List.find?_isSome]
    exact ⟨u, hmem, by simp⟩
  obtain ⟨w, hw⟩ := Option.isSome_iff_exists.mp hsome
  have hlockedRow : findUserById (trackFailedLoginAttempt st now email ip ua) u.id =
      some (lockUpdate now w) := by
    rw [htrack, findUserById_updateUser _ _ (lockUpdate now) (fun a => rfl)]
    have : findUserById { st with failedLoginAttempts :=
        st.failedLoginAttempts ++ [⟨email, ip, ua, some u.id, now⟩] } u.id = some w := hw
    rw [this]
    rfl
  have hByEmail : findUserByEmail (trackFailedLoginAttempt st now email ip ua) email =
      some (lockUpdate now u) := by
    rw [htrack, findUserByEmail_updateUser _ _ (lockUpdate now) (fun a => rfl)]
    have : findUserByEmail { st with failedLoginAttempts :=
        st.failedLoginAttempts ++ [⟨email, ip, ua, some u.id, now⟩] } email = some u := hfe'
    rw [this]
    simp
  have hlocked : isAccountLocked (trackFailedLoginAttempt st now email ip ua) now2 u.id =
      (true, trackFailedLoginAttempt st now email ip ua) := by
    simp [isAccountLocked, hlockedRow, lockUpdate, hw2]
  refine ⟨⟨lockUpdate now w, hlockedRow, rfl, rfl, rfl⟩, ?_⟩
  have hid : (lockUpdate now u).id = u.id := rfl
  simp [login, hByEmail, hid, hlocked]

/-- Witness for C2: in c2Store the fifth failure at time 1000000 locks u2
and the sixth attempt at 1000001 with the correct password fails
AccountLocked. -/
theorem C2_fifth_failure_locks_witness :
    (∃ v, findUserById (trackFailedLoginAttempt c2Store 1000000 "b@x.com" none none)
        "u2" = some v ∧
      v.accountStatus = "LOCKED" ∧ v.deactivatedAt = some 1000000 ∧
      v.deactivationReason = some "Too many failed login attempts") ∧
    (login cEnv (trackFailedLoginAttempt c2Store 1000000 "b@x.com" none none) 1000001
        ⟨"b@x.com", "pw2", none, none⟩).1 =
      Except.error
        ⟨"Account is locked due to too many failed attempts. Please try again later.", 401⟩ :=
  C2_fifth_failure_locks cEnv c2Store 1000000 1000001 "b@x.com" "pw2" none none c2User
    (by decide) (by decide) (by decide) (by decide) (by decide)

/-- Claim C10: changePassword compares the new password only against the
stored password-history entries, never against the current hash itself;
registration creates the account with an empty history, so for an account
that has never changed its password a change whose new password equals the
current one succeeds. -/
theorem C10_no_history_seed_same_password_ok (env : Env) (st0 st : Store)
    (now0 now : Nat) (d : IRegisterDto) (role : Role) (userId cur : String) (u : Account)
    (hno : st0.users.find? (fun x =>
        decide (x.email = d.email) || decide (x.username = d.username)) = none)
    (hrole : st0.roles.find? (fun r => decide (r.name = "USER")) = some role)
    (hu : findUserById st userId = some u)
    (hhist : u.passwordHistory = [])
    (hcur : bcompare cur u.password = true) :
    (∃ resp st1 acct, register env st0 now0 d = (Except.ok resp, st1) ∧
      st1.users = st0.users ++ [acct] ∧ acct.id = resp.user.id ∧
      acct.passwordHistory = []) ∧
    (changePassword st now userId cur cur).1 = Except.ok "Password updated successfully" := by
  refine ⟨?_, ?_⟩
  · simp only [register, hno, hrole, createSession, trackActivity]
    exact ⟨_, _, _, rfl, rfl, rfl, rfl⟩
  · simp [changePassword, hu, hcur, hhist]

/-- Witness for C10: registering a fresh user against cStore yields an
empty history, and cUser (empty history) may change its password to its
current one. -/
theorem C10_no_history_seed_same_password_ok_witness :
    (∃ resp st1 acct, register cEnv cStore cStore.nonce cFreshRegDto = (Except.ok resp, st1) ∧
      st1.users = cStore.users ++ [acct] ∧ acct.id = resp.user.id ∧
      acct.passwordHistory = []) ∧
    (changePassword cStore 5000 "u1" "pw" "pw").1 =
      Except.ok "Password updated successfully" :=
  C10_no_history_seed_same_password_ok cEnv cStore cStore cStore.nonce 5000 cFreshRegDto
    cRole "u1" "pw" cUser (by decide) (by decide) (by decide) (by decide) (by decide)

end Enxero
